import Mathlib

/-!
Verification of the CAN-frame codec and dispatch engine of
`src/main.py` (a Tkinter + CAN air-conditioner controller GUI).

The shallow embedding below translates the core of the source:
  * `_build_data` (frame encoder: literal data lists and field templates
    with scale / width / endianness),
  * `_rx_loop` (frame dispatch: controller telemetry, inverter telemetry,
    unmatched diagnostics),
  * `_poll` (display update, nibble decoding, 10 s staleness timeouts),
  * `on_start` / `on_stop` / `on_set` (command semantics).

Machine integers are modelled as `Int`/`Nat` with explicit reductions
modulo 256 where the source masks with `& 0xFF`; Python floats that only
ever carry scale factors and scaled values are modelled as `ℚ`, with
Python 3's `round` (round half to even) made explicit.
-/

namespace Conditioner

/-- Python `n & 0xFF` on an arbitrary (possibly negative) integer:
Python integers are infinite two's complement, so the result is the
canonical representative of `n` modulo 256. -/
def byteOf (n : Int) : Nat := (Int.emod n 256).toNat

/-- Python `n >> k` (arithmetic shift right), i.e. floor division by `2^k`. -/
def pyShiftRight (n : Int) (k : Nat) : Int := Int.fdiv n (2 ^ k)

/-- Python 3's built-in `round` to an integer: round half to even
(banker's rounding), as used at `src/main.py:152`
(`num = int(round(float(val) * scale))`). -/
def pyRound (q : ℚ) : Int :=
  if q - ⌊q⌋ < 1/2 then ⌊q⌋
  else if 1/2 < q - ⌊q⌋ then ⌊q⌋ + 1
  else if Even ⌊q⌋ then ⌊q⌋ else ⌊q⌋ + 1

/-- Endianness tag of a field template (`item.get("endian", "le")`). -/
inductive Endian
  | le
  | be
deriving DecidableEq, Repr

/-- One item of a `data_template` list (`src/main.py:142-147`): either a
constant byte (a bare integer in the list, or a descriptor without a
`field` key, whose `value` defaults to 0 — both append one masked byte
and `continue`, skipping the length check), or a templated field with a
context key, scale, byte width and endianness. -/
inductive TplItem
  | const (v : Int)
  | field (name : String) (scale : ℚ) (width : Int) (endian : Endian)

/-- Serialization of the scaled, rounded value per width/endianness
(`src/main.py:154-164`): width 1 emits the low byte; width 2 emits low
then high byte (reversed for big endian); width 4 emits four bytes of
ascending significance (reversed for big endian); any other width takes
the `else` branch and emits one low byte. -/
def serializeField (num : Int) (width : Int) (endian : Endian) : List Nat :=
  if width = 1 then [byteOf num]
  else if width = 2 then
    let b0 := byteOf num
    let b1 := byteOf (pyShiftRight num 8)
    match endian with
    | Endian.le => [b0, b1]
    | Endian.be => [b1, b0]
  else if width = 4 then
    let bs := [byteOf num, byteOf (pyShiftRight num 8),
               byteOf (pyShiftRight num 16), byteOf (pyShiftRight num 24)]
    match endian with
    | Endian.le => bs
    | Endian.be => bs.reverse
  else [byteOf num]

/-- Value resolution for a templated field (`src/main.py:151-152`):
`val = ctx.get(field, 0)` then `num = int(round(float(val) * scale))`. -/
def resolveNum (ctx : String → Option ℚ) (name : String) (scale : ℚ) : Int :=
  pyRound ((ctx name).getD 0 * scale)

/-- The template loop of `_build_data` (`src/main.py:141-165`): constant
items append one byte and skip the length check (`continue`); field items
append their serialization and then break once `len(out) >= 8`. -/
def stepTemplate (ctx : String → Option ℚ) : List TplItem → List Nat → List Nat
  | [], out => out
  | TplItem.const v :: rest, out => stepTemplate ctx rest (out ++ [byteOf v])
  | TplItem.field name scale width endian :: rest, out =>
    let out2 := out ++ serializeField (resolveNum ctx name scale) width endian
    if 8 ≤ out2.length then out2 else stepTemplate ctx rest out2

/-- A `messages.<key>` definition as `_build_data` consumes it: either a
literal `data` byte list or a `data_template` item list. -/
structure MsgDef where
  data : Option (List Int)
  data_template : List TplItem

/-- Function `_build_data` (`src/main.py:136-169`): a literal `data` list is
masked byte-wise and truncated to 8; otherwise the template loop runs and
its output is truncated to 8; either way the result is zero-padded up to
exactly 8 bytes. -/
def buildData (msg : MsgDef) (ctx : String → Option ℚ) : List Nat :=
  let data :=
    match msg.data with
    | some ds => (ds.map byteOf).take 8
    | none => (stepTemplate ctx msg.data_template []).take 8
  data ++ List.replicate (8 - data.length) 0

/-- C1: for every message definition (literal or templated) and every
context, the encoder returns a payload of exactly 8 bytes. -/
theorem c1_payload_always_8_bytes (msg : MsgDef) (ctx : String → Option ℚ) :
    (buildData msg ctx).length = 8 := by
  unfold buildData
  have pad : ∀ l : List Nat, l.length ≤ 8 →
      (l ++ List.replicate (8 - l.length) 0).length = 8 := by
    intro l hl
    simp [List.length_append, List.length_replicate]
    omega
  cases msg.data with
  | some ds =>
    simp only
    exact pad _ (by simp [List.length_take])
  | none =>
    simp only
    exact pad _ (by simp [List.length_take])

/-- The rounding rule the spec claims for scaled values: round to
nearest, ties away from zero. Stated from the spec's words only, to be
compared with the source's `pyRound`. -/
def roundHalfAwayFromZero (q : ℚ) : Int :=
  if 0 ≤ q then ⌊q + 1/2⌋ else ⌈q - 1/2⌉

/-- The encoder's rounding lands within 1/2 of the scaled value. -/
theorem pyRound_dist (q : ℚ) : |q - (pyRound q : ℚ)| ≤ 1/2 := by
  have h0 : (⌊q⌋ : ℚ) ≤ q := Int.floor_le q
  have h1 : q < ⌊q⌋ + 1 := Int.lt_floor_add_one q
  unfold pyRound
  split_ifs with ha hb hc
  · rw [abs_le]; constructor <;> linarith
  · rw [abs_le]; constructor <;> push_cast <;> linarith
  · rw [abs_le]; constructor <;> linarith
  · rw [abs_le]; constructor <;> push_cast <;> linarith

/-- At an exact tie the encoder's rounding picks the even neighbour. -/
theorem pyRound_tie_even (q : ℚ) (h : q - ⌊q⌋ = 1/2) : Even (pyRound q) := by
  unfold pyRound
  split_ifs with ha hb hc
  · exfalso; linarith
  · exfalso; linarith
  · exact hc
  · exact Int.even_add_one.mpr hc

/-- Counterexample to C8 as stated: the source rounds half to even
(Python 3 `round`), not away from zero. With context value 1 and scale
1/2, the scaled value 1/2 is encoded as byte 0, while rounding ties away
from zero would give 1. -/
theorem c8_ties_away_counterexample :
    serializeField (resolveNum (fun _ => some 1) "x" (1/2)) 1 Endian.le = [0] ∧
    roundHalfAwayFromZero ((1 : ℚ) * (1/2)) = 1 := by
  constructor
  · have h : resolveNum (fun _ => some 1) "x" (1/2) = 0 := by
      norm_num [resolveNum, pyRound]
    rw [h]; rfl
  · norm_num [roundHalfAwayFromZero]

/-- C8 (amended): the encoder resolves a templated field's value from the
context by key (defaulting to 0 if absent), multiplies it by the scale
factor and rounds the product to the nearest integer — consistently, with
ties rounded to the nearest even integer (Python 3 `round`), not away
from zero. -/
theorem c8_scale_and_round (ctx : String → Option ℚ) (name : String)
    (scale : ℚ) (endian : Endian) :
    serializeField (resolveNum ctx name scale) 1 endian
      = [byteOf (pyRound ((ctx name).getD 0 * scale))] ∧
    |(ctx name).getD 0 * scale - (pyRound ((ctx name).getD 0 * scale) : ℚ)| ≤ 1/2 ∧
    ((ctx name).getD 0 * scale - ⌊(ctx name).getD 0 * scale⌋ = 1/2 →
      Even (pyRound ((ctx name).getD 0 * scale))) ∧
    (ctx name = none → resolveNum ctx name scale = pyRound (0 * scale)) := by
  refine ⟨rfl, pyRound_dist _, pyRound_tie_even _, ?_⟩
  intro h
  unfold resolveNum
  rw [h, Option.getD_none]

/-- C9: for every numeric value, the width-2 and width-4 big-endian
serializations are the byte-order reversals of the little-endian ones. -/
theorem c9_endian_mirror (num : Int) :
    serializeField num 2 Endian.be = (serializeField num 2 Endian.le).reverse ∧
    serializeField num 4 Endian.be = (serializeField num 4 Endian.le).reverse := by
  constructor <;> simp [serializeField]

/-- C10: a field template with a declared byte width other than 1, 2 or 4
does not make the encoder fail: it emits exactly one byte holding the low
8 bits of the scaled, rounded value, identically to width 1. -/
theorem c10_other_width_one_byte (num : Int) (width : Int) (endian : Endian)
    (h1 : width ≠ 1) (h2 : width ≠ 2) (h4 : width ≠ 4) :
    serializeField num width endian = [byteOf num] ∧
    serializeField num width endian = serializeField num 1 endian := by
  constructor <;> simp [serializeField, h1, h2, h4]

/-- Witness for C10 at the concrete width 3: one byte, as for width 1. -/
theorem c10_other_width_one_byte_witness :
    serializeField 300 3 Endian.le = [byteOf 300] ∧
    serializeField 300 3 Endian.le = serializeField 300 1 Endian.le :=
  c10_other_width_one_byte 300 3 Endian.le (by decide) (by decide) (by decide)

/-! ### Frame dispatch (`_rx_loop`, `src/main.py:171-239`) -/

/-- A raw received CAN frame as `_rx_loop` sees it: arbitration id,
extended-id flag and payload bytes. -/
structure RawFrame where
  id : Nat
  ext : Bool
  data : List Nat

/-- The two inbound signatures `_rx_loop` captures from the configuration
(`tid`/`text` for controller telemetry, `iid`/`iext` for the inverter,
`src/main.py:172-175`). -/
structure RxCfg where
  tid : Nat
  text : Bool
  iid : Nat
  iext : Bool

/-- The structured event `_rx_loop` publishes for one received frame:
a controller telemetry dict, an inverter dict (with the three optional
fields), or the not-matched diagnostic log carrying id, extended flag,
length and bytes (`src/main.py:186-235`). -/
inductive RxEvent
  | telemetry (err set temp cond fanRaw stateRaw : Nat) (raw : List Nat)
  | inv (cur volt temp : Nat) (err5 state6 state7 : Option Nat) (raw : List Nat)
  | unmatched (id : Nat) (ext : Bool) (len : Nat) (raw : List Nat)
deriving DecidableEq, Repr

/-- One dispatch step of `_rx_loop` (`src/main.py:186-235`): the
controller signature is checked first (exact id, exact extended flag,
length ≥ 8) and decodes bytes 0,1,2,3,6,7; otherwise the inverter
signature (exact id, exact extended flag, length ≥ 3) decodes bytes 0-2
plus byte 5 when length ≥ 6, byte 6 when length ≥ 7 and byte 7 when
length ≥ 8; otherwise the frame is reported unmatched. -/
def dispatch (cfg : RxCfg) (f : RawFrame) : RxEvent :=
  let gotLen := f.data.length
  if f.id = cfg.tid ∧ f.ext = cfg.text ∧ 8 ≤ gotLen then
    RxEvent.telemetry (f.data.getD 0 0) (f.data.getD 1 0) (f.data.getD 2 0)
      (f.data.getD 3 0) (f.data.getD 6 0) (f.data.getD 7 0) f.data
  else if f.id = cfg.iid ∧ f.ext = cfg.iext ∧ 3 ≤ gotLen then
    RxEvent.inv (f.data.getD 0 0) (f.data.getD 1 0) (f.data.getD 2 0)
      (if 6 ≤ gotLen then some (f.data.getD 5 0) else none)
      (if 7 ≤ gotLen then some (f.data.getD 6 0) else none)
      (if 8 ≤ gotLen then some (f.data.getD 7 0) else none)
      (f.data.take (max 3 gotLen))
  else RxEvent.unmatched f.id f.ext gotLen f.data

/-- C2: dispatch checks the controller telemetry signature first and on
match decodes bytes 0,1,2,3,6,7; otherwise the inverter signature, whose
event carries bytes 0-2 always, byte 5 exactly when length ≥ 6, byte 6
exactly when length ≥ 7 and byte 7 exactly when length ≥ 8, and whose raw
copy is the whole payload; otherwise an unmatched diagnostic carrying the
raw id, extended flag, length and bytes. -/
theorem c2_dispatch_order (cfg : RxCfg) (f : RawFrame) :
    (f.id = cfg.tid ∧ f.ext = cfg.text ∧ 8 ≤ f.data.length →
      dispatch cfg f = RxEvent.telemetry (f.data.getD 0 0) (f.data.getD 1 0)
        (f.data.getD 2 0) (f.data.getD 3 0) (f.data.getD 6 0) (f.data.getD 7 0)
        f.data) ∧
    (¬(f.id = cfg.tid ∧ f.ext = cfg.text ∧ 8 ≤ f.data.length) →
      f.id = cfg.iid ∧ f.ext = cfg.iext ∧ 3 ≤ f.data.length →
      dispatch cfg f = RxEvent.inv (f.data.getD 0 0) (f.data.getD 1 0)
        (f.data.getD 2 0)
        (if 6 ≤ f.data.length then some (f.data.getD 5 0) else none)
        (if 7 ≤ f.data.length then some (f.data.getD 6 0) else none)
        (if 8 ≤ f.data.length then some (f.data.getD 7 0) else none)
        f.data) ∧
    (¬(f.id = cfg.tid ∧ f.ext = cfg.text ∧ 8 ≤ f.data.length) →
      ¬(f.id = cfg.iid ∧ f.ext = cfg.iext ∧ 3 ≤ f.data.length) →
      dispatch cfg f = RxEvent.unmatched f.id f.ext f.data.length f.data) := by
  refine ⟨fun h1 => ?_, fun h1 h2 => ?_, fun h1 h2 => ?_⟩
  · simp only [dispatch, if_pos h1]
  · have hraw : f.data.take (max 3 f.data.length) = f.data := by
      rw [max_eq_right h2.2.2, List.take_length]
    simp only [dispatch, if_neg h1, if_pos h2, hraw]
  · simp only [dispatch, if_neg h1, if_neg h2]

/-- Witness for C2 at a concrete frame: id 0x5E0100, extended, 8 bytes
`[0,22,24,30,0,0,0,0x23]` decodes as controller telemetry with error 0,
setpoint 22, temperature 24, condenser 30, fan byte 0 (byte 6) and state
byte 0x23 (byte 7). -/
theorem c2_dispatch_order_witness :
    dispatch ⟨0x5E0100, true, 0x5E0200, true⟩
        ⟨0x5E0100, true, [0, 22, 24, 30, 0, 0, 0, 0x23]⟩ =
      RxEvent.telemetry 0 22 24 30 0 0x23 [0, 22, 24, 30, 0, 0, 0, 0x23] := by
  have h := (c2_dispatch_order ⟨0x5E0100, true, 0x5E0200, true⟩
    ⟨0x5E0100, true, [0, 22, 24, 30, 0, 0, 0, 0x23]⟩).1 (by decide)
  exact h.trans (by decide)

/-! ### State tables and nibble decoding (`src/main.py:253-282, 710-734`) -/

/-- Table `ACControllerApp.MAIN_STATE` (`src/main.py:253-260`): the controller
Main-state lookup table (dict `.get` modelled as an `Option`). -/
def MAIN_STATE (n : Nat) : Option String :=
  if n = 0 then some "выключено"
  else if n = 1 then some "тестирование"
  else if n = 2 then some "ожидание"
  else if n = 3 then some "работа"
  else if n = 4 then some "ошибка"
  else if n = 5 then some "продувка"
  else none

/-- Table `ACControllerApp.SUB_STATE` (`src/main.py:261-267`). -/
def SUB_STATE (n : Nat) : Option String :=
  if n = 0 then some "перед выключением"
  else if n = 1 then some "выключено"
  else if n = 2 then some "работа"
  else if n = 3 then some "перед ожиданием"
  else if n = 4 then some "ожидание"
  else none

/-- Table `ACControllerApp.INV_MAIN` (`src/main.py:270-276`): inverter Main
states, read from byte 7. -/
def INV_MAIN (n : Nat) : Option String :=
  if n = 0 then some "выключено"
  else if n = 1 then some "пауза"
  else if n = 2 then some "плавное выключение"
  else if n = 3 then some "включено"
  else if n = 4 then some "перед отключением"
  else none

/-- Table `ACControllerApp.INV_SUB` (`src/main.py:277-282`): inverter Sub
states, read from byte 6. -/
def INV_SUB (n : Nat) : Option String :=
  if n = 0 then some "выключено"
  else if n = 1 then some "включено"
  else if n = 2 then some "пауза"
  else if n = 3 then some "плавное выключение"
  else none

/-- Controller state-byte decoding (`src/main.py:711-712`):
`main = (state_byte >> 4) & 0x0F`, `sub = state_byte & 0x0F`. -/
def decodeMainSub (stateByte : Nat) : Nat × Nat :=
  ((stateByte >>> 4) &&& 0xF, stateByte &&& 0xF)

/-- Rendered controller Main-state text (`src/main.py:714`):
`MAIN_STATE.get(main, f"неизв({main})")`. -/
def mainStateText (n : Nat) : String :=
  (MAIN_STATE n).getD ("неизв(" ++ toString n ++ ")")

/-- Rendered controller Sub-state text (`src/main.py:715`). -/
def subStateText (n : Nat) : String :=
  (SUB_STATE n).getD ("неизв(" ++ toString n ++ ")")

/-- Rendered inverter Main text for byte 7 (`src/main.py:729-731`): the
*whole* byte is looked up, no nibble mask is applied. -/
def invMainText (s7 : Nat) : String :=
  (INV_MAIN s7).getD ("неизв(" ++ toString s7 ++ ")")

/-- Rendered inverter Sub text for byte 6 (`src/main.py:732-734`): the
*whole* byte is looked up, no nibble mask is applied. -/
def invSubText (s6 : Nat) : String :=
  (INV_SUB s6).getD ("неизв(" ++ toString s6 ++ ")")

/-- The claim's reading of the inverter Sub state: a nibble of byte 6.
Stated from the spec's words only, to be compared with `invSubText`. -/
def invSubNibbleText (b : Nat) : String := invSubText (b &&& 0xF)

set_option maxRecDepth 8000 in
/-- C6: controller state decoding extracts Main as the high nibble and
Sub as the low nibble of state byte 7, looks each nibble up in its
enumeration table and renders out-of-table values as `неизв(<value>)`
("unknown") instead of failing; 0x23 yields Main=2 (in table) and Sub=3
(in table), 0xFF yields 15/15 both rendered unknown. -/
theorem c6_nibble_decoding :
    (∀ b, b < 256 → decodeMainSub b = (b / 16, b % 16)) ∧
    (∀ n, MAIN_STATE n = none → mainStateText n = "неизв(" ++ toString n ++ ")") ∧
    (∀ n, SUB_STATE n = none → subStateText n = "неизв(" ++ toString n ++ ")") ∧
    decodeMainSub 0x23 = (2, 3) ∧
    MAIN_STATE 2 = some "ожидание" ∧
    SUB_STATE 3 = some "перед ожиданием" ∧
    decodeMainSub 0xFF = (15, 15) ∧
    mainStateText 15 = "неизв(15)" ∧
    subStateText 15 = "неизв(15)" := by
  refine ⟨by decide, ?_, ?_, by decide, by decide, by decide, by decide,
    by decide, by decide⟩
  · intro n h
    unfold mainStateText
    rw [h]
    rfl
  · intro n h
    unfold subStateText
    rw [h]
    rfl

/-- Counterexample to C7 as stated: the inverter Sub state is *not* a
nibble of byte 6 — the code looks up the whole byte. For byte 0x12 the
code renders `неизв(18)` (unknown), while the low nibble 2 is a valid
table entry ("пауза"); the two readings disagree. -/
theorem c7_nibble_counterexample :
    invSubText 0x12 = "неизв(18)" ∧
    invSubNibbleText 0x12 = "пауза" ∧
    invSubText 0x12 ≠ invSubNibbleText 0x12 := by
  refine ⟨by decide, by decide, by decide⟩

/-- C7 (amended): in inverter telemetry decoding, the Sub state is the
entire byte 6 with valid (in-table) values 0-3 and the Main state is the
entire byte 7 with valid values 0-4 — no nibble mask is applied — and
any out-of-range value is rendered as `неизв(<value>)` ("unknown")
rather than failing. -/
theorem c7_whole_byte_states :
    (∀ b, b ≤ 3 → (INV_SUB b).isSome = true) ∧
    (∀ b, b ≤ 4 → (INV_MAIN b).isSome = true) ∧
    (∀ b, 4 ≤ b → INV_SUB b = none ∧ invSubText b = "неизв(" ++ toString b ++ ")") ∧
    (∀ b, 5 ≤ b → INV_MAIN b = none ∧ invMainText b = "неизв(" ++ toString b ++ ")") := by
  refine ⟨?_, ?_, ?_, ?_⟩
  · intro b hb
    interval_cases b <;> decide
  · intro b hb
    interval_cases b <;> decide
  · intro b hb
    have hnone : INV_SUB b = none := by
      unfold INV_SUB
      rw [if_neg (by omega), if_neg (by omega), if_neg (by omega), if_neg (by omega)]
    refine ⟨hnone, ?_⟩
    unfold invSubText
    rw [hnone]
    rfl
  · intro b hb
    have hnone : INV_MAIN b = none := by
      unfold INV_MAIN
      rw [if_neg (by omega), if_neg (by omega), if_neg (by omega),
        if_neg (by omega), if_neg (by omega)]
    refine ⟨hnone, ?_⟩
    unfold invMainText
    rw [hnone]
    rfl

/-! ### Display state, liveness and commands
(`src/main.py:284-352, 591-620, 655-664, 686-760`)

A `_poll` pass at wall-clock time `t` drains the queue (each controller
telemetry dict is one `PollEvent.telem _ _ t`) and then runs the timeout
check (one `PollEvent.tick t`). Only the controller-channel fields that
the claims touch are modelled; the inverter channel duplicates the same
mechanism verbatim (`src/main.py:755-758`). The display string
`var_set` is modelled as `Option Nat`: `none` is the unparseable
placeholder `"--"` (initial value and the value `_reset_ctrl_display`
restores), `some n` is the rendered number a snapshot wrote. -/

/-- The controller-channel slice of the GUI state: the displayed setpoint
(`var_set`), `_last_main_state`, `_last_ctrl_rx` and `_ctrl_valid`. -/
structure AppState where
  varSet : Option Nat
  lastMainState : Option Nat
  lastCtrlRx : ℚ
  ctrlValid : Bool
deriving DecidableEq

/-- Initial state (`src/main.py:307,311,349,351`): setpoint shows "--",
no Main state known, last-rx 0.0, channel not valid. -/
def initApp : AppState :=
  { varSet := none, lastMainState := none, lastCtrlRx := 0, ctrlValid := false }

/-- Constant `ACControllerApp.TIMEOUT_S = 10.0` (`src/main.py:284`). -/
def TIMEOUT_S : ℚ := 10

/-- One event processed by `_poll` at time `t`. -/
inductive PollEvent
  | telem (setByte stateByte : Nat) (t : ℚ)
  | tick (t : ℚ)

/-- One `_poll` step; the second component records whether this step
fired the display reset (`_reset_ctrl_display`). A telemetry dict
(`src/main.py:693-717`) refreshes the display, the timestamp, the valid
flag and `_last_main_state` (the high nibble of state byte 7). The
timeout check (`src/main.py:750-753`) fires exactly when the channel is
valid and `now - _last_ctrl_rx > TIMEOUT_S`; it clears the valid flag and
resets the display (`var_set` back to "--"), but `_last_main_state` is
not touched by `_reset_ctrl_display` (`src/main.py:655-664`). -/
def pollStep (s : AppState) : PollEvent → AppState × Bool
  | PollEvent.telem setByte stateByte t =>
    ({ varSet := some setByte,
       lastMainState := some ((stateByte >>> 4) &&& 0xF),
       lastCtrlRx := t, ctrlValid := true }, false)
  | PollEvent.tick t =>
    if s.ctrlValid = true ∧ TIMEOUT_S < t - s.lastCtrlRx then
      ({ s with ctrlValid := false, varSet := none }, true)
    else (s, false)

/-- Runs a list of `_poll` events; the second component counts how many
times the display reset fired. -/
def pollRun : AppState → List PollEvent → AppState × Nat
  | s, [] => (s, 0)
  | s, e :: es =>
    ((pollRun (pollStep s e).1 es).1,
      (if (pollStep s e).2 then 1 else 0) + (pollRun (pollStep s e).1 es).2)

/-- An event that is not a received telemetry snapshot. -/
def isTick : PollEvent → Prop
  | PollEvent.telem _ _ _ => False
  | PollEvent.tick _ => True

/-- While the channel is invalid (never seen, or already stale), a
timeout check neither changes the state nor fires the reset. -/
theorem pollStep_tick_invalid (s : AppState) (t : ℚ) (hs : s.ctrlValid = false) :
    pollStep s (PollEvent.tick t) = (s, false) := by
  simp only [pollStep]
  rw [if_neg]
  intro h
  rw [hs] at h
  exact Bool.false_ne_true h.1

/-- With no received snapshot, a run of timeout checks leaves the state
untouched and never fires the reset. -/
theorem pollRun_no_telem (s : AppState) (hs : s.ctrlValid = false)
    (es : List PollEvent) (h : ∀ e ∈ es, isTick e) :
    pollRun s es = (s, 0) := by
  induction es with
  | nil => rfl
  | cons e es ih =>
    cases e with
    | telem sb stb t => exact absurd (h _ (List.mem_cons_self _ _)) id
    | tick t =>
      have hstep := pollStep_tick_invalid s t hs
      simp only [pollRun, hstep]
      rw [ih fun e he => h e (List.mem_cons_of_mem _ he)]
      rfl

/-- A telemetry step leaves `_last_main_state` holding the snapshot's
Main nibble; a timeout step never touches it. -/
theorem pollStep_tick_lastMain (s : AppState) (t : ℚ) :
    ((pollStep s (PollEvent.tick t)).1).lastMainState = s.lastMainState := by
  simp only [pollStep]
  split_ifs <;> rfl

/-- C3: per-channel liveness as a {Unseen, Valid, Stale} machine. With no
snapshot ever received the state never changes and the reset never fires
(Unseen never becomes Stale); any snapshot makes the channel Valid; for a
Valid channel a check fires the reset exactly when `now - lastSeen > 10`;
while already invalid (stale) further checks fire nothing; and in the
spec's scenario — snapshot at t=0, checks at 9.9 s, 10.1 s, 15 s and
20 s — the reset fires exactly once (at the 10.1 s check). -/
theorem c3_liveness_state_machine :
    (∀ es, (∀ e ∈ es, isTick e) → pollRun initApp es = (initApp, 0)) ∧
    (∀ s sb stb t, ((pollStep s (PollEvent.telem sb stb t)).1).ctrlValid = true) ∧
    (∀ s t, s.ctrlValid = true →
      ((pollStep s (PollEvent.tick t)).2 = true ↔ TIMEOUT_S < t - s.lastCtrlRx)) ∧
    (∀ s t, s.ctrlValid = false → pollStep s (PollEvent.tick t) = (s, false)) ∧
    (pollRun initApp [PollEvent.telem 22 0x23 0, PollEvent.tick (99/10),
      PollEvent.tick (101/10), PollEvent.tick 15, PollEvent.tick 20]).2 = 1 := by
  refine ⟨fun es h => pollRun_no_telem initApp rfl es h,
    fun s sb stb t => rfl, fun s t hs => ?_,
    fun s t hs => pollStep_tick_invalid s t hs, ?_⟩
  · simp only [pollStep]
    split_ifs with h
    · simp only [true_iff]
      exact h.2
    · simp only [Bool.false_eq_true, false_iff]
      intro hlt
      exact h ⟨hs, hlt⟩
  · norm_num [pollRun, pollStep, initApp, TIMEOUT_S]

/-- Witness for C3 on a concrete stale transition: a valid channel last
seen at time 0 fires the reset at a check at time 11. -/
theorem c3_liveness_witness :
    (pollStep (AppState.mk (some 22) (some 2) 0 true) (PollEvent.tick 11)).2 = true :=
  (c3_liveness_state_machine.2.2.1 _ 11 rfl).mpr (by norm_num [TIMEOUT_S])

/-! ### Commands (`src/main.py:591-620`) -/

/-- Helper `_get_state_setpoint` (`src/main.py:591-596`): parse the displayed
setpoint; the placeholder "--" (modelled `none`) does not parse. -/
def getStateSetpoint (s : AppState) : Option Nat := s.varSet

/-- Handler `on_start` (`src/main.py:599-605`): if no setpoint is known the
command is rejected with a warning before any encode or send (`none`);
otherwise the START frame is requested with the last known setpoint as
the context value (`some v`). -/
def on_start (s : AppState) : Option Nat :=
  match getStateSetpoint s with
  | none => none
  | some v => some v

/-- Handler `on_stop` (`src/main.py:607-613`): same guard as `on_start`, sending
STOP instead. -/
def on_stop (s : AppState) : Option Nat :=
  match getStateSetpoint s with
  | none => none
  | some v => some v

/-- Handler `on_set` (`src/main.py:615-620`): the SET context carries the
spinbox value and a mode byte, 0x00 when `_last_main_state == 2`
("ожидание"/standby) and 0x20 otherwise (a never-set `_last_main_state`
compares unequal to 2). -/
def on_set (s : AppState) (input : Nat) : Nat × Nat :=
  (input, if s.lastMainState = some 2 then 0x00 else 0x20)

/-- Counterexample to C4 as stated: "once a snapshot exists, the command
is accepted" fails. After a snapshot at t=0 (setpoint 22) and a timeout
check at t=11, the staleness reset has cleared the display, so START is
rejected even though a snapshot has been received. -/
theorem c4_accepted_counterexample :
    on_start ((pollRun initApp
      [PollEvent.telem 22 0x23 0, PollEvent.tick 11]).1) = none := by
  norm_num [pollRun, pollStep, initApp, TIMEOUT_S, on_start, getStateSetpoint]

/-- C4 (amended): START and STOP are rejected before any encode or send
attempt — no frame, no silently-encoded 0 — while no snapshot has ever
been received; right after a snapshot they are accepted with that
snapshot's setpoint as the context value; a staleness reset clears the
setpoint again, after which they are rejected until the next snapshot; a
check that does not fire leaves acceptance unchanged; STOP behaves
exactly like START. -/
theorem c4_start_requires_setpoint :
    (∀ es, (∀ e ∈ es, isTick e) →
      on_start (pollRun initApp es).1 = none ∧
      on_stop (pollRun initApp es).1 = none) ∧
    (∀ s sb stb t, on_start ((pollStep s (PollEvent.telem sb stb t)).1) = some sb) ∧
    (∀ s t, s.ctrlValid = true → TIMEOUT_S < t - s.lastCtrlRx →
      on_start ((pollStep s (PollEvent.tick t)).1) = none) ∧
    (∀ s t, ¬(s.ctrlValid = true ∧ TIMEOUT_S < t - s.lastCtrlRx) →
      on_start ((pollStep s (PollEvent.tick t)).1) = on_start s) ∧
    (∀ s, on_stop s = on_start s) := by
  refine ⟨fun es h => ?_, fun s sb stb t => rfl, fun s t h1 h2 => ?_,
    fun s t h => ?_, fun s => rfl⟩
  · rw [pollRun_no_telem initApp rfl es h]
    exact ⟨rfl, rfl⟩
  · simp only [pollStep]
    rw [if_pos ⟨h1, h2⟩]
    rfl
  · simp only [pollStep]
    rw [if_neg h]

/-- Witness for C4 on a concrete trace: with no snapshot (two bare
checks), START is rejected. -/
theorem c4_start_requires_setpoint_witness :
    on_start (pollRun initApp [PollEvent.tick 5, PollEvent.tick 11]).1 = none :=
  ((c4_start_requires_setpoint.1 [PollEvent.tick 5, PollEvent.tick 11]
    (by intro e he; fin_cases he <;> trivial)).1)

/-- The fold computing the Main state of the most recent snapshot in an
event list (`none` when the list holds no snapshot). -/
def lastMainOf (es : List PollEvent) : Option Nat :=
  es.foldl (fun acc e => match e with
    | PollEvent.telem _ stb _ => some ((stb >>> 4) &&& 0xF)
    | PollEvent.tick _ => acc) none

/-- After any event run, `_last_main_state` is exactly the Main nibble of
the most recent snapshot (never cleared by timeouts). -/
theorem pollRun_lastMainState (s : AppState) (es : List PollEvent) :
    ((pollRun s es).1).lastMainState =
      es.foldl (fun acc e => match e with
        | PollEvent.telem _ stb _ => some ((stb >>> 4) &&& 0xF)
        | PollEvent.tick _ => acc) s.lastMainState := by
  induction es generalizing s with
  | nil => rfl
  | cons e es ih =>
    cases e with
    | telem sb stb t =>
      simp only [pollRun, List.foldl]
      rw [ih]
      rfl
    | tick t =>
      simp only [pollRun, List.foldl]
      rw [ih, pollStep_tick_lastMain]

/-- C5: the SET mode byte is 0x00 exactly when the most recent snapshot's
Main state is 2 (standby), and 0x20 in every other case — including when
no snapshot has ever been received. -/
theorem c5_set_mode_byte :
    (∀ es input,
      ((on_set (pollRun initApp es).1 input).2 = 0x00 ↔ lastMainOf es = some 2) ∧
      ((on_set (pollRun initApp es).1 input).2 = 0x20 ↔ lastMainOf es ≠ some 2)) ∧
    (∀ input, (on_set initApp input).2 = 0x20) := by
  refine ⟨fun es input => ?_, fun input => rfl⟩
  have h : ((pollRun initApp es).1).lastMainState = lastMainOf es :=
    pollRun_lastMainState initApp es
  simp only [on_set, h]
  by_cases hm : lastMainOf es = some 2
  · rw [if_pos hm]
    constructor <;> simp [hm]
  · rw [if_neg hm]
    constructor <;> simp [hm]

end Conditioner
